import Mathlib

/-!
Verification development for the HTTP Access Layer of a browser-side blog
client.  The development shallowly embeds the two core modules:

* the token manager (`src/utils/tokenManager.ts`): a credential store backed
  by `localStorage`, with `setTokens`, `getAccessToken`, `getRefreshToken`,
  `isTokenExpired`, `clearTokens`, `isAuthenticated`;
* the API client (`apiClient.ts`): axios request/response interceptors with
  error classification, session side effects and 5xx retry with exponential
  backoff.

JavaScript values are modelled as follows: `localStorage` holds the three
typed fields of the credential record (the expiry is stored in the browser as
the decimal string of a millisecond timestamp; since the only writer is
`setTokens`, which stores `(Date.now() + expiresIn * 1000).toString()`, and
`parseInt` inverts `toString` on integers, the store models that slot as an
`Option Int` directly).  Times are integer millisecond timestamps.  JavaScript
truthiness of the optional string/number fields is modelled explicitly
(`null`/`undefined`, the empty string and the number 0 are falsy).  Response
bodies are a small JSON value type.
-/

/-- Characters skipped by the leading-whitespace phase of `parseInt`. -/
def jsSpace (c : Char) : Bool :=
  c = ' ' || c = '\t' || c = '\n' || c = '\r'

/-- Value of the longest leading run of decimal digits; absent when there is
no leading digit (the `NaN` case of `parseInt`). -/
def digitsVal (cs : List Char) : Option Nat :=
  let ds := cs.takeWhile Char.isDigit
  if ds.isEmpty then none
  else some (ds.foldl (fun a c => a * 10 + (c.toNat - 48)) 0)

/-- JavaScript `parseInt(s, 10)`: skip leading whitespace, optional sign,
then the longest run of decimal digits; `none` models `NaN`. -/
def jsParseInt (s : String) : Option Int :=
  let cs := s.toList.dropWhile jsSpace
  match cs with
  | '-' :: rest => (digitsVal rest).map (fun n => -(n : Int))
  | '+' :: rest => (digitsVal rest).map (fun n => (n : Int))
  | _ => (digitsVal cs).map (fun n => (n : Int))

/-- List version of string containment, first argument leading the second. -/
def leadsWith : List Char → List Char → Bool
  | [], _ => true
  | _ :: _, [] => false
  | a :: as, b :: bs => a = b && leadsWith as bs

/-- Containment of `pat` anywhere in the list. -/
def occursIn (pat : List Char) : List Char → Bool
  | [] => leadsWith pat []
  | b :: bs => leadsWith pat (b :: bs) || occursIn pat bs

/-- JavaScript `s.includes(pat)`. -/
def jsIncludes (s pat : String) : Bool :=
  occursIn pat.toList s.toList

/-- Truthiness of an optional JavaScript string (`undefined` and the empty
string are falsy). -/
def truthyOptStr : Option String → Bool
  | none => false
  | some s => s ≠ ""

/-- Truthiness of an optional JavaScript number (`undefined` and `0` are
falsy; `NaN` cannot arise for the integer-valued fields modelled here). -/
def truthyOptInt : Option Int → Bool
  | none => false
  | some n => n ≠ 0

/-! ## Credential store (tokenManager.ts) -/

/-- Contents of `localStorage` at the three keys used by the token manager:
`auth_token`, `refresh_token`, `token_expiry`.  `none` models an absent key. -/
structure Store where
  token : Option String
  refreshToken : Option String
  tokenExpiry : Option Int
  deriving DecidableEq, Repr

/-- Argument record of `setTokens` (interface `TokenData`): `expiresIn` is a
duration in seconds, optional. -/
structure TokenData where
  accessToken : String
  refreshToken : Option String
  expiresIn : Option Int
  deriving DecidableEq, Repr

/-- Persistence-failure pattern: `fails i = true` means the i-th
`localStorage.setItem` call performed by one `setTokens` run throws (for
example a quota error).  The all-`false` pattern is the normally operating
backend. -/
def noFail : Nat → Bool := fun _ => false

/-- State of a sequence of guarded writes: store so far, index of the next
write attempt, and whether a write has thrown (after which control is in the
`catch` block and no further write executes). -/
structure WState where
  st : Store
  idx : Nat
  errored : Bool

/-- Perform one `setItem` call: skipped entirely once an earlier write threw;
throws (setting the flag, leaving the store as is) when the failure pattern
says so; otherwise applies the write. -/
def doWrite (fails : Nat → Bool) (w : WState) (f : Store → Store) : WState :=
  if w.errored then w
  else if fails w.idx then { w with errored := true, idx := w.idx + 1 }
  else { st := f w.st, idx := w.idx + 1, errored := false }

/-- Embedding of `setTokens` (tokenManager.ts lines 34-49) run against a
backend with failure pattern `fails` at time `now` (ms).  The body is a
`try`/`catch`: unconditionally write the access token; write the refresh
token only when truthy; write `Date.now() + expiresIn * 1000` as the expiry
only when `expiresIn` is truthy.  A throw is caught and only logged, so the
function always returns; the second component reports whether an error was
caught. -/
def setTokensRun (fails : Nat → Bool) (now : Int) (data : TokenData)
    (st : Store) : Store × Bool :=
  let w0 : WState := ⟨st, 0, false⟩
  let w1 := doWrite fails w0 (fun s => { s with token := some data.accessToken })
  let w2 :=
    if truthyOptStr data.refreshToken then
      doWrite fails w1 (fun s => { s with refreshToken := data.refreshToken })
    else w1
  let w3 :=
    if truthyOptInt data.expiresIn then
      doWrite fails w2
        (fun s => { s with
          tokenExpiry := (data.expiresIn).map (fun n => now + n * 1000) })
    else w2
  (w3.st, w3.errored)

/-- Store left behind by `setTokens`. -/
def setTokens (fails : Nat → Bool) (now : Int) (data : TokenData)
    (st : Store) : Store :=
  (setTokensRun fails now data st).1

/-- Embedding of `getAccessToken` (lines 54-61): `localStorage.getItem`
returns the stored string or `null`. -/
def getAccessToken (st : Store) : Option String :=
  st.token

/-- Embedding of `getRefreshToken` (lines 66-73). -/
def getRefreshToken (st : Store) : Option String :=
  st.refreshToken

/-- Embedding of `isTokenExpired` (lines 78-88): false when no expiry is
stored, else `Date.now() >= parseInt(expiry, 10)`. -/
def isTokenExpired (st : Store) (now : Int) : Bool :=
  match st.tokenExpiry with
  | none => false
  | some e => e ≤ now

/-- Embedding of `clearTokens` (lines 93-101): removes all three keys. -/
def clearTokens (_st : Store) : Store :=
  ⟨none, none, none⟩

/-- Embedding of `isAuthenticated` (lines 106-109): `!!token &&
!isTokenExpired()`; the double negation makes the empty-string token falsy. -/
def isAuthenticated (st : Store) (now : Int) : Bool :=
  truthyOptStr (getAccessToken st) && !(isTokenExpired st now)

/-! ## API client (apiClient.ts) -/

/-- JSON-like value carried in request and response bodies. -/
inductive JVal where
  | null
  | bool (b : Bool)
  | num (n : Int)
  | str (s : String)
  | arr (xs : List JVal)
  | obj (fields : List (String × JVal))

/-- Truthiness of a `JVal` (objects and arrays are always truthy). -/
def jsTruthy : JVal → Bool
  | .null => false
  | .bool b => b
  | .num n => n ≠ 0
  | .str s => s ≠ ""
  | .arr _ => true
  | .obj _ => true

/-- Property access `v?.k`: field lookup on objects, `undefined` otherwise. -/
def jget (v : JVal) (k : String) : Option JVal :=
  match v with
  | .obj fields => List.lookup k fields
  | _ => none

/-- JavaScript `a || b` where `a` is a possibly-`undefined` value. -/
def jsOr (a : Option JVal) (b : JVal) : JVal :=
  match a with
  | some v => if jsTruthy v then v else b
  | none => b

/-- Message extraction used by the 401 and 400 branches:
`data?.message || data?.error || fallback`. -/
def errorMessageOf (data : JVal) (fallback : String) : JVal :=
  jsOr (jget data "message") (jsOr (jget data "error") (.str fallback))

/-- Embedding of `ApiError` (apiClient.ts lines 62-79).  The `message` slot
is a `JVal` because the extracted server message is passed through
unconverted. -/
structure ApiError where
  message : JVal
  statusCode : Option Nat
  code : String
  data : Option JVal

/-- HTTP response as seen by the interceptors: status, parsed body, and the
`retry-after` header when the server sent one. -/
structure Response where
  status : Nat
  data : JVal
  retryAfterHeader : Option String

/-- Axios error object reaching `responseErrorInterceptor`: the response if
one arrived, the request url (`error.config?.url`), the retry counter
attached to the request descriptor (`_retryCount`, absent before the first
5xx failure), the transport error code, and the error message. -/
structure AxiosErr where
  response : Option Response
  url : Option String
  retryCount : Option Nat
  code : Option String
  message : String

/-- Configuration of the client callbacks: a flag is true when the callback
is set and the `window` guard passes, so the callback actually runs. -/
structure ApiClientConfig where
  onUnauthorized : Bool
  onForbidden : Bool
  onRateLimit : Bool

/-- Observable callback invocations.  The rate-limit payload is the
`retryAfter` argument: outer `none` is `undefined`, `some none` is `NaN`,
`some (some n)` is the number n. -/
inductive Ev where
  | unauthorizedCb
  | forbiddenCb
  | rateLimitCb (retryAfter : Option (Option Int))
  deriving DecidableEq

/-- Outcome of the error interceptor: either re-submit the request after a
delay (ms) with the updated retry counter, or throw a classified error. -/
inductive ErrDecision where
  | retry (delayMs : Nat) (newRetryCount : Nat)
  | throwE (e : ApiError)

/-- Store, emitted events and decision produced by one interceptor run. -/
structure InterceptOut where
  store : Store
  events : List Ev
  decision : ErrDecision

/-- Retry ceiling (`MAX_RETRIES`, apiClient.ts line 15). -/
def MAX_RETRIES : Nat := 3

/-- Auth-endpoint test of the 401 branch (lines 165-167):
`error.config?.url?.includes(...)` on the three auth paths, optional
chaining making an absent url falsy. -/
def isAuthRoute (url : Option String) : Bool :=
  match url with
  | none => false
  | some u =>
      jsIncludes u ("/auth/login") || jsIncludes u ("/auth/register") ||
        jsIncludes u ("/auth/refresh")

/-- Value handed to the rate-limit callback (lines 233-234):
`retryAfter ? parseInt(retryAfter, 10) : undefined`, the header being falsy
when absent or empty. -/
def parseRetryAfter (h : Option String) : Option (Option Int) :=
  match h with
  | none => none
  | some s => if s = "" then none else some (jsParseInt s)

/-- Fallthrough of the interceptor once every status test failed (lines
273-296): timeout, no-response, then the generic classification. -/
def networkOrGeneric (e : AxiosErr) : ApiError :=
  if e.code = some ("ECONNABORTED") || jsIncludes e.message ("timeout") then
    ⟨.str ("Request timeout. Please check your connection."), none,
      "TIMEOUT", none⟩
  else
    match e.response with
    | none =>
        ⟨.str ("Network error. Please check your connection."), none,
          "NETWORK_ERROR", none⟩
    | some r =>
        ⟨jsOr (if e.message = "" then none else some (.str e.message))
            (.str ("An unexpected error occurred")),
          some r.status, "UNKNOWN_ERROR", some r.data⟩

/-- Embedding of `responseErrorInterceptor` (apiClient.ts lines 149-297),
threading the credential store explicitly and recording callback invocations
as events.  The status dispatch follows the source order: 401, 400, 403,
404, 429, >= 500, then transport-level classification. -/
def responseErrorInterceptor (cfg : ApiClientConfig) (st : Store)
    (e : AxiosErr) : InterceptOut :=
  match e.response with
  | some r =>
    if r.status = 401 then
      let authRoute := isAuthRoute e.url
      let st2 := if authRoute then st else clearTokens st
      let evs : List Ev :=
        if authRoute then []
        else if cfg.onUnauthorized then [.unauthorizedCb] else []
      ⟨st2, evs,
        .throwE ⟨errorMessageOf r.data ("Authentication failed"), some 401,
          "UNAUTHORIZED", some r.data⟩⟩
    else if r.status = 400 then
      ⟨st, [],
        .throwE ⟨errorMessageOf r.data ("Validation failed"), some 400,
          "VALIDATION_ERROR", some r.data⟩⟩
    else if r.status = 403 then
      ⟨st, if cfg.onForbidden then [.forbiddenCb] else [],
        .throwE ⟨.str ("Access forbidden"), some 403, "FORBIDDEN",
          some r.data⟩⟩
    else if r.status = 404 then
      ⟨st, [],
        .throwE ⟨.str ("Resource not found"), some 404, "NOT_FOUND",
          some r.data⟩⟩
    else if r.status = 429 then
      ⟨st,
        if cfg.onRateLimit then [.rateLimitCb (parseRetryAfter r.retryAfterHeader)]
        else [],
        .throwE ⟨.str ("Too many requests. Please try again later."),
          some 429, "RATE_LIMIT_EXCEEDED", some r.data⟩⟩
    else if 500 ≤ r.status then
      let rc := e.retryCount.getD 0
      if rc < MAX_RETRIES then
        ⟨st, [], .retry (2 ^ rc * 1000) (rc + 1)⟩
      else
        ⟨st, [],
          .throwE ⟨.str ("Server error. Please try again later."),
            some r.status, "SERVER_ERROR", some r.data⟩⟩
    else
      ⟨st, [], .throwE (networkOrGeneric e)⟩
  | none => ⟨st, [], .throwE (networkOrGeneric e)⟩

/-- Embedding of the success-path `responseInterceptor` (lines 133-143):
the promise resolves with `response.data`, the body itself. -/
def responseInterceptor (r : Response) : JVal :=
  r.data

/-- Embedding of `requestInterceptor` (lines 100-119), restricted to its
credential effect: the `Authorization` header of the outgoing request, which
starts absent and is set to `Bearer <token>` exactly when the stored token is
truthy and not expired. -/
def requestInterceptor (st : Store) (now : Int) : Option String :=
  match getAccessToken st with
  | some t =>
      if t ≠ "" && !(isTokenExpired st now) then some ("Bearer " ++ t)
      else none
  | none => none

/-! ## Driver: one call through the full request/response cycle

A retry decision resubmits the original descriptor through `apiClient`, so
the cycle repeats with the incremented `_retryCount`.  The server is an
oracle giving the response to the i-th attempt; axios resolves statuses in
[200, 300) and rejects the rest. -/

/-- Result of a call: resolved body, thrown classified error, or fuel
exhaustion (never reached from `runCall`, whose fuel covers the retry
ceiling). -/
inductive CallResult where
  | ok (body : JVal)
  | err (e : ApiError)
  | outOfFuel

/-- Trace of one call: number of attempts sent, backoff delays awaited (ms),
final result, final store, callback events in order. -/
structure RunOut where
  attempts : Nat
  delays : List Nat
  result : CallResult
  store : Store
  events : List Ev

/-- Fuelled request/response loop: attempt `i` gets `server i`; a 2xx
response resolves through `responseInterceptor`; anything else goes through
`responseErrorInterceptor`, whose decision either throws or waits and
resubmits with the new retry counter. -/
def runCallGo (cfg : ApiClientConfig) (server : Nat → Response)
    (url : Option String) :
    Nat → Nat → Option Nat → Store → List Nat → List Ev → RunOut
  | 0, i, _, st, ds, evs => ⟨i, ds, .outOfFuel, st, evs⟩
  | fuel + 1, i, rc, st, ds, evs =>
    let r := server i
    if 200 ≤ r.status ∧ r.status < 300 then
      ⟨i + 1, ds, .ok (responseInterceptor r), st, evs⟩
    else
      let out := responseErrorInterceptor cfg st ⟨some r, url, rc, none, ""⟩
      match out.decision with
      | .throwE e => ⟨i + 1, ds, .err e, out.store, evs ++ out.events⟩
      | .retry d rc2 =>
          runCallGo cfg server url fuel (i + 1) (some rc2) out.store
            (ds ++ [d]) (evs ++ out.events)

/-- One call through the Access Layer: fresh descriptor (no retry counter),
fuel 5 covering the initial attempt plus the ceiling of 3 retries. -/
def runCall (cfg : ApiClientConfig) (url : Option String) (st : Store)
    (server : Nat → Response) : RunOut :=
  runCallGo cfg server url 5 0 none st [] []

/-! ## Reference semantics of a failing save

The amended reading of the save contract needs a second, spec-side
description to compare `setTokensRun` against: the planned writes execute in
order, the first write the backend fails on stops execution with the error
caught, so the writes completed before it take effect and every remaining
field keeps its prior value. -/

/-- Writes one `setTokens` call plans against the backend, in execution
order: the access-token write always, then the refresh-token write when the
incoming field is truthy, then the expiry write when `expiresIn` is truthy. -/
def specWriteSeq (now : Int) (d : TokenData) : List (Store → Store) :=
  [fun s => { s with token := some d.accessToken }] ++
    (if truthyOptStr d.refreshToken then
      [fun s => { s with refreshToken := d.refreshToken }]
    else []) ++
    (if truthyOptInt d.expiresIn then
      [fun s => { s with
        tokenExpiry := (d.expiresIn).map (fun n => now + n * 1000) }]
    else [])

/-- Reference outcome of a save, transcribed from the amended claim: apply
the planned writes in order; on the first write the backend fails, stop with
the error caught, leaving the store exactly as the completed writes built it
(so every field a remaining write would have touched keeps its prior value). -/
def specRunWrites (fails : Nat → Bool) :
    Nat → Store → List (Store → Store) → Store × Bool
  | _, st, [] => (st, false)
  | i, st, f :: fs =>
      if fails i then (st, true) else specRunWrites fails (i + 1) (f st) fs

/-! ## Helper lemmas -/

/-- Outcome of `setTokens` against a normally operating backend: the access
token is always replaced; the refresh token and the expiry are replaced only
when the incoming field is truthy, and otherwise keep their previous stored
values. -/
lemma setTokensRun_noFail (now : Int) (d : TokenData) (st : Store) :
    setTokensRun noFail now d st =
      (⟨some d.accessToken,
        if truthyOptStr d.refreshToken then d.refreshToken else st.refreshToken,
        if truthyOptInt d.expiresIn then
          (d.expiresIn).map (fun n => now + n * 1000)
        else st.tokenExpiry⟩, false) := by
  unfold setTokensRun doWrite noFail
  cases hr : truthyOptStr d.refreshToken <;>
    cases he : truthyOptInt d.expiresIn <;> simp [hr, he]

/-! ## Claims about the credential store -/

/-- C7: `isTokenExpired` returns true exactly when an expiry instant is
stored and the current time has reached or passed it; with no stored expiry
it returns false, the credential being treated as never-expiring. -/
theorem isTokenExpired_iff_expiry_reached (st : Store) (now : Int) :
    isTokenExpired st now = true ↔ ∃ e, st.tokenExpiry = some e ∧ e ≤ now := by
  unfold isTokenExpired
  cases h : st.tokenExpiry with
  | none => simp
  | some e => simp

/-- C8 counterexample: a backend that accepts the first write and throws on
the second leaves a half-updated record — the access token already carries the
new value while the refresh token and the expiry keep the old ones — so a
failing save does not leave the previous state entirely unchanged. -/
theorem setTokens_partial_write_cex :
    ((setTokensRun (fun i => i == 1) 0 ⟨"a1", some ("r1"), some 60⟩
        ⟨some ("a0"), some ("r0"), some 5⟩).2 = true) ∧
    (setTokensRun (fun i => i == 1) 0 ⟨"a1", some ("r1"), some 60⟩
        ⟨some ("a0"), some ("r0"), some 5⟩).1 ≠
      ⟨some ("a0"), some ("r0"), some 5⟩ ∧
    (setTokensRun (fun i => i == 1) 0 ⟨"a1", some ("r1"), some 60⟩
        ⟨some ("a0"), some ("r0"), some 5⟩).1.token = some ("a1") := by
  decide

/-- C8 amended: a persistence failure during `setTokens` propagates no
exception (the run always returns, reporting the caught error), and the
resulting store is exactly the prefix-write outcome: the writes completed
before the failing one take the new values and every remaining field keeps
its prior value — in particular, when the very first write fails the
previous state is entirely unchanged. -/
theorem setTokens_failure_semantics (fails : Nat → Bool) (now : Int)
    (d : TokenData) (st : Store) :
    setTokensRun fails now d st =
      specRunWrites fails 0 st (specWriteSeq now d) ∧
    (fails 0 = true → setTokensRun fails now d st = (st, true)) := by
  have key : setTokensRun fails now d st =
      specRunWrites fails 0 st (specWriteSeq now d) := by
    unfold setTokensRun doWrite specWriteSeq
    cases hr : truthyOptStr d.refreshToken <;>
      cases he : truthyOptInt d.expiresIn <;>
        cases h0 : fails 0 <;> cases h1 : fails 1 <;> cases h2 : fails 2 <;>
          simp [hr, he, h0, h1, h2, specRunWrites]
  refine ⟨key, fun h0 => ?_⟩
  rw [key]
  unfold specWriteSeq
  simp [specRunWrites, h0]

/-- Witness for C8 amended: a failure on the second write keeps the prior
refresh token and expiry next to the already-replaced access token, and a
failure on the first write leaves the store entirely unchanged. -/
theorem setTokens_failure_semantics_witness :
    (setTokensRun (fun i => i == 1) 0 ⟨"a1", some ("r1"), some 60⟩
        ⟨some ("a0"), some ("r0"), some 5⟩ =
      (⟨some ("a1"), some ("r0"), some 5⟩, true)) ∧
    setTokensRun (fun _ => true) 0 ⟨"a1", some ("r1"), some 60⟩
        ⟨some ("a0"), some ("r0"), some 5⟩ =
      (⟨some ("a0"), some ("r0"), some 5⟩, true) :=
  ⟨((setTokens_failure_semantics (fun i => i == 1) 0
      ⟨"a1", some ("r1"), some 60⟩ ⟨some ("a0"), some ("r0"), some 5⟩).1).trans
    (by decide),
   (setTokens_failure_semantics (fun _ => true) 0
      ⟨"a1", some ("r1"), some 60⟩ ⟨some ("a0"), some ("r0"), some 5⟩).2 rfl⟩

/-- C9 counterexample: a successful save of a record that omits the refresh
token and the expiry leaves the previously stored refresh token and expiry in
place — fields of the previous record survive the save, so the replacement is
not a full atomic overwrite. -/
theorem setTokens_stale_fields_cex :
    setTokens noFail 0 ⟨"a1", none, none⟩ ⟨some ("a0"), some ("r0"), some 99⟩ =
      ⟨some ("a1"), some ("r0"), some 99⟩ := by
  decide

/-- C9 amended: a successful save always replaces the access token, but
replaces the refresh token only when the record carries a truthy one and the
expiry only when the record carries a truthy `expiresIn`; omitted (or falsy)
fields keep the previously stored values rather than being cleared. -/
theorem setTokens_success_semantics (now : Int) (d : TokenData) (st : Store) :
    setTokens noFail now d st =
      ⟨some d.accessToken,
        if truthyOptStr d.refreshToken then d.refreshToken else st.refreshToken,
        if truthyOptInt d.expiresIn then
          (d.expiresIn).map (fun n => now + n * 1000)
        else st.tokenExpiry⟩ := by
  unfold setTokens
  rw [setTokensRun_noFail]

/-- C10 counterexample: with an expired expiry instant already stored,
calling `setTokens` with `expiresIn = 0` (at time 100, with stored expiry 50)
leaves the stale expiry in place, so `isTokenExpired` is true and
`isAuthenticated` is false afterwards — not the never-expiring credential the
claim describes. -/
theorem setTokens_zero_expiresIn_cex :
    truthyOptInt (some 0) = false ∧
    (setTokens noFail 100 ⟨"a1", none, some 0⟩ ⟨none, none, some 50⟩).tokenExpiry
        = some 50 ∧
    isTokenExpired (setTokens noFail 100 ⟨"a1", none, some 0⟩
        ⟨none, none, some 50⟩) 100 = true ∧
    isAuthenticated (setTokens noFail 100 ⟨"a1", none, some 0⟩
        ⟨none, none, some 50⟩) 100 = false := by
  decide

/-- C10 amended: `setTokens` with an absent or zero `expiresIn` stores no new
expiry instant (the previously stored one, if any, is left in place); when no
expiry instant was stored beforehand and the access token saved is nonempty,
`isTokenExpired` returns false and `isAuthenticated` returns true at every
later time while the token remains stored. -/
theorem setTokens_no_expiry_semantics (st : Store) (now now2 : Int)
    (d : TokenData) (hexp : d.expiresIn = none ∨ d.expiresIn = some 0)
    (hprev : st.tokenExpiry = none) (htok : d.accessToken ≠ "") :
    (setTokens noFail now d st).tokenExpiry = none ∧
    isTokenExpired (setTokens noFail now d st) now2 = false ∧
    isAuthenticated (setTokens noFail now d st) now2 = true := by
  have he : truthyOptInt d.expiresIn = false := by
    rcases hexp with h | h <;> simp [truthyOptInt, h]
  unfold setTokens
  rw [setTokensRun_noFail]
  refine ⟨by simp [he, hprev], ?_, ?_⟩ <;>
    simp [isTokenExpired, isAuthenticated, getAccessToken, truthyOptStr, he,
      hprev, htok]

/-- Witness for C10 amended at a concrete record with `expiresIn = 0`. -/
theorem setTokens_no_expiry_semantics_witness :
    (setTokens noFail 7 ⟨"a1", none, some 0⟩ ⟨none, none, none⟩).tokenExpiry
        = none ∧
    isTokenExpired (setTokens noFail 7 ⟨"a1", none, some 0⟩
        ⟨none, none, none⟩) 1000 = false ∧
    isAuthenticated (setTokens noFail 7 ⟨"a1", none, some 0⟩
        ⟨none, none, none⟩) 1000 = true :=
  setTokens_no_expiry_semantics ⟨none, none, none⟩ 7 1000 ⟨"a1", none, some 0⟩
    (Or.inr rfl) rfl (by decide)

/-- Reduction of the error interceptor on a 401 response. -/
lemma interceptor_401 (cfg : ApiClientConfig) (st : Store) (e : AxiosErr)
    (r : Response) (hr : e.response = some r) (hs : r.status = 401) :
    responseErrorInterceptor cfg st e =
      ⟨if isAuthRoute e.url then st else clearTokens st,
        if isAuthRoute e.url then []
        else if cfg.onUnauthorized then [.unauthorizedCb] else [],
        .throwE ⟨errorMessageOf r.data ("Authentication failed"), some 401,
          "UNAUTHORIZED", some r.data⟩⟩ := by
  unfold responseErrorInterceptor
  rw [hr]
  simp [hs]

/-- Reduction of the error interceptor on a 429 response. -/
lemma interceptor_429 (cfg : ApiClientConfig) (st : Store) (e : AxiosErr)
    (r : Response) (hr : e.response = some r) (hs : r.status = 429) :
    responseErrorInterceptor cfg st e =
      ⟨st,
        if cfg.onRateLimit then [.rateLimitCb (parseRetryAfter r.retryAfterHeader)]
        else [],
        .throwE ⟨.str ("Too many requests. Please try again later."), some 429,
          "RATE_LIMIT_EXCEEDED", some r.data⟩⟩ := by
  unfold responseErrorInterceptor
  rw [hr]
  simp [hs]

/-- Reduction of the error interceptor on a server-error response: below the
retry ceiling the decision is a backoff-and-resubmit with the counter
incremented, at the ceiling it is a SERVER_ERROR classification. -/
lemma interceptor_5xx (cfg : ApiClientConfig) (st : Store) (e : AxiosErr)
    (r : Response) (hr : e.response = some r) (h5 : 500 ≤ r.status) :
    responseErrorInterceptor cfg st e =
      ⟨st, [],
        if e.retryCount.getD 0 < MAX_RETRIES then
          .retry (2 ^ e.retryCount.getD 0 * 1000) (e.retryCount.getD 0 + 1)
        else
          .throwE ⟨.str ("Server error. Please try again later."),
            some r.status, "SERVER_ERROR", some r.data⟩⟩ := by
  unfold responseErrorInterceptor
  rw [hr]
  have h1 : r.status ≠ 401 := by omega
  have h2 : r.status ≠ 400 := by omega
  have h3 : r.status ≠ 403 := by omega
  have h4 : r.status ≠ 404 := by omega
  have h6 : r.status ≠ 429 := by omega
  by_cases hrc : e.retryCount.getD 0 < MAX_RETRIES <;>
    simp [h1, h2, h3, h4, h6, h5, hrc]

/-- Inversion: the only decision that resubmits is the 5xx branch below the
ceiling, and it increments the counter and waits `2^retryCount` seconds. -/
lemma interceptor_retry_inv (cfg : ApiClientConfig) (st : Store) (e : AxiosErr)
    (d rc2 : Nat)
    (h : (responseErrorInterceptor cfg st e).decision = .retry d rc2) :
    e.retryCount.getD 0 < MAX_RETRIES ∧ rc2 = e.retryCount.getD 0 + 1 ∧
      d = 2 ^ e.retryCount.getD 0 * 1000 := by
  unfold responseErrorInterceptor at h
  cases hr : e.response with
  | none => rw [hr] at h; simp at h
  | some r =>
    rw [hr] at h
    by_cases h1 : r.status = 401
    · simp [h1] at h
    by_cases h2 : r.status = 400
    · simp [h1, h2] at h
    by_cases h3 : r.status = 403
    · simp [h1, h2, h3] at h
    by_cases h4 : r.status = 404
    · simp [h1, h2, h3, h4] at h
    by_cases h6 : r.status = 429
    · simp [h1, h2, h3, h4, h6] at h
    by_cases h5 : 500 ≤ r.status
    · by_cases hrc : e.retryCount.getD 0 < MAX_RETRIES
      · simp [h1, h2, h3, h4, h6, h5, hrc] at h
        exact ⟨hrc, h.2.symm, h.1.symm⟩
      · simp [h1, h2, h3, h4, h6, h5, hrc] at h
    · simp [h1, h2, h3, h4, h6, h5] at h

/-! ## Claims about the interceptors -/

/-- C2: a 401 response off the auth endpoints clears the stored credentials
and invokes the configured unauthenticated callback exactly once, both as
part of producing (hence before throwing) the UNAUTHORIZED classified error,
and `isAuthenticated` is false immediately afterwards. -/
theorem unauthorized_non_auth_route_effects (cfg : ApiClientConfig)
    (st : Store) (e : AxiosErr) (r : Response) (hr : e.response = some r)
    (hs : r.status = 401) (hroute : isAuthRoute e.url = false)
    (hcb : cfg.onUnauthorized = true) :
    (responseErrorInterceptor cfg st e).store = ⟨none, none, none⟩ ∧
    (responseErrorInterceptor cfg st e).events = [.unauthorizedCb] ∧
    (responseErrorInterceptor cfg st e).decision =
      .throwE ⟨errorMessageOf r.data ("Authentication failed"), some 401,
        "UNAUTHORIZED", some r.data⟩ ∧
    ∀ now, isAuthenticated (responseErrorInterceptor cfg st e).store now
        = false := by
  rw [interceptor_401 cfg st e r hr hs]
  simp [hroute, hcb, clearTokens, isAuthenticated, getAccessToken, truthyOptStr]

/-- Witness for C2 at a concrete 401 on a non-auth path. -/
theorem unauthorized_non_auth_route_effects_witness :
    (responseErrorInterceptor ⟨true, true, true⟩
        ⟨some ("a"), some ("r"), some 5⟩
        ⟨some ⟨401, JVal.null, none⟩, some ("/api/blogs"), none, none, ""⟩).store
      = ⟨none, none, none⟩ ∧
    (responseErrorInterceptor ⟨true, true, true⟩
        ⟨some ("a"), some ("r"), some 5⟩
        ⟨some ⟨401, JVal.null, none⟩, some ("/api/blogs"), none, none, ""⟩).events
      = [.unauthorizedCb] ∧
    isAuthenticated (responseErrorInterceptor ⟨true, true, true⟩
        ⟨some ("a"), some ("r"), some 5⟩
        ⟨some ⟨401, JVal.null, none⟩, some ("/api/blogs"), none, none, ""⟩).store 0
      = false := by
  have h := unauthorized_non_auth_route_effects ⟨true, true, true⟩
    ⟨some ("a"), some ("r"), some 5⟩
    ⟨some ⟨401, JVal.null, none⟩, some ("/api/blogs"), none, none, ""⟩
    ⟨401, JVal.null, none⟩ rfl rfl (by decide) rfl
  exact ⟨h.1, h.2.1, h.2.2.2 0⟩

/-- C3: a 401 response on a login, registration or refresh path leaves the
stored credentials untouched, invokes no callback, and still throws the
UNAUTHORIZED classified error carrying the server-supplied message whenever
the body holds a truthy one. -/
theorem auth_route_401_preserves_credentials (cfg : ApiClientConfig)
    (st : Store) (e : AxiosErr) (r : Response) (hr : e.response = some r)
    (hs : r.status = 401) (hroute : isAuthRoute e.url = true) :
    (responseErrorInterceptor cfg st e).store = st ∧
    (responseErrorInterceptor cfg st e).events = [] ∧
    (responseErrorInterceptor cfg st e).decision =
      .throwE ⟨errorMessageOf r.data ("Authentication failed"), some 401,
        "UNAUTHORIZED", some r.data⟩ ∧
    ∀ m, jget r.data "message" = some m → jsTruthy m = true →
      errorMessageOf r.data ("Authentication failed") = m := by
  rw [interceptor_401 cfg st e r hr hs]
  refine ⟨by simp [hroute], by simp [hroute], rfl, fun m hm ht => ?_⟩
  simp [errorMessageOf, jsOr, hm, ht]

/-- Witness for C3 at a concrete 401 on the login path. -/
theorem auth_route_401_preserves_credentials_witness :
    (responseErrorInterceptor ⟨true, true, true⟩
        ⟨some ("a"), some ("r"), some 5⟩
        ⟨some ⟨401, JVal.obj [("message", JVal.str ("Invalid credentials"))], none⟩,
          some ("/auth/login"), none, none, ""⟩).store
      = ⟨some ("a"), some ("r"), some 5⟩ ∧
    (responseErrorInterceptor ⟨true, true, true⟩
        ⟨some ("a"), some ("r"), some 5⟩
        ⟨some ⟨401, JVal.obj [("message", JVal.str ("Invalid credentials"))], none⟩,
          some ("/auth/login"), none, none, ""⟩).events
      = [] ∧
    errorMessageOf (JVal.obj [("message", JVal.str ("Invalid credentials"))])
        ("Authentication failed")
      = JVal.str ("Invalid credentials") := by
  have h := auth_route_401_preserves_credentials ⟨true, true, true⟩
    ⟨some ("a"), some ("r"), some 5⟩
    ⟨some ⟨401, JVal.obj [("message", JVal.str ("Invalid credentials"))], none⟩,
      some ("/auth/login"), none, none, ""⟩
    ⟨401, JVal.obj [("message", JVal.str ("Invalid credentials"))], none⟩
    rfl rfl (by decide)
  exact ⟨h.1, h.2.1, h.2.2.2 (JVal.str ("Invalid credentials")) rfl (by decide)⟩

/-- C4: the outbound stage attaches `Authorization: Bearer <token>` exactly
when a nonempty access token is stored and not expired; with no stored token,
or an expired one, no Authorization header is attached. -/
theorem authorization_header_policy (st : Store) (now : Int) :
    (∀ t, getAccessToken st = some t → t ≠ "" →
      isTokenExpired st now = false →
      requestInterceptor st now = some ("Bearer " ++ t)) ∧
    (getAccessToken st = none → requestInterceptor st now = none) ∧
    (isTokenExpired st now = true → requestInterceptor st now = none) := by
  unfold requestInterceptor
  refine ⟨fun t ht hne hexp => ?_, fun h => ?_, fun h => ?_⟩
  · rw [ht]; simp [hne, hexp]
  · rw [h]
  · cases hg : getAccessToken st with
    | none => rfl
    | some t => simp [h]

/-- Witness for C4 with a stored, never-expiring token. -/
theorem authorization_header_policy_witness :
    requestInterceptor ⟨some ("tok"), none, none⟩ 0 = some ("Bearer " ++ "tok") :=
  (authorization_header_policy ⟨some ("tok"), none, none⟩ 0).1 "tok" rfl
    (by decide) rfl

/-- Unfolding of one driver step (definitional). -/
lemma runCallGo_succ (cfg : ApiClientConfig) (server : Nat → Response)
    (url : Option String) (fuel i : Nat) (rc : Option Nat) (st : Store)
    (ds : List Nat) (evs : List Ev) :
    runCallGo cfg server url (fuel + 1) i rc st ds evs =
      if 200 ≤ (server i).status ∧ (server i).status < 300 then
        ⟨i + 1, ds, .ok (responseInterceptor (server i)), st, evs⟩
      else
        match (responseErrorInterceptor cfg st
            ⟨some (server i), url, rc, none, ""⟩).decision with
        | .throwE e2 =>
            ⟨i + 1, ds, .err e2,
              (responseErrorInterceptor cfg st
                ⟨some (server i), url, rc, none, ""⟩).store,
              evs ++ (responseErrorInterceptor cfg st
                ⟨some (server i), url, rc, none, ""⟩).events⟩
        | .retry d rc2 =>
            runCallGo cfg server url fuel (i + 1) (some rc2)
              (responseErrorInterceptor cfg st
                ⟨some (server i), url, rc, none, ""⟩).store
              (ds ++ [d])
              (evs ++ (responseErrorInterceptor cfg st
                ⟨some (server i), url, rc, none, ""⟩).events) := by
  rfl

/-- Unfolding of the call entry point (definitional). -/
lemma runCall_unfold (cfg : ApiClientConfig) (url : Option String) (st : Store)
    (server : Nat → Response) :
    runCall cfg url st server = runCallGo cfg server url (4 + 1) 0 none st [] [] :=
  rfl

/-- One 5xx round below the ceiling: wait the backoff delay and resubmit with
the counter incremented; store and events untouched. -/
lemma runCallGo_5xx_step (cfg : ApiClientConfig) (server : Nat → Response)
    (url : Option String) (fuel i : Nat) (rc : Option Nat) (st : Store)
    (ds : List Nat) (evs : List Ev) (h5 : 500 ≤ (server i).status)
    (hrc : rc.getD 0 < MAX_RETRIES) :
    runCallGo cfg server url (fuel + 1) i rc st ds evs =
      runCallGo cfg server url fuel (i + 1) (some (rc.getD 0 + 1)) st
        (ds ++ [2 ^ rc.getD 0 * 1000]) evs := by
  rw [runCallGo_succ]
  rw [if_neg (by omega)]
  rw [interceptor_5xx cfg st ⟨some (server i), url, rc, none, ""⟩ (server i)
    rfl h5]
  simp [hrc]

/-- A 5xx response at the ceiling: the call fails with SERVER_ERROR. -/
lemma runCallGo_5xx_stop (cfg : ApiClientConfig) (server : Nat → Response)
    (url : Option String) (fuel i : Nat) (rc : Option Nat) (st : Store)
    (ds : List Nat) (evs : List Ev) (h5 : 500 ≤ (server i).status)
    (hrc : ¬ rc.getD 0 < MAX_RETRIES) :
    runCallGo cfg server url (fuel + 1) i rc st ds evs =
      ⟨i + 1, ds,
        .err ⟨.str ("Server error. Please try again later."),
          some ((server i).status), "SERVER_ERROR", some ((server i).data)⟩,
        st, evs⟩ := by
  rw [runCallGo_succ]
  rw [if_neg (by omega)]
  rw [interceptor_5xx cfg st ⟨some (server i), url, rc, none, ""⟩ (server i)
    rfl h5]
  simp [hrc]

/-- The number of attempts a run can still make is bounded via the retry
counter, which every resubmission increments. -/
lemma runCallGo_attempts_le (cfg : ApiClientConfig) (server : Nat → Response)
    (url : Option String) :
    ∀ (fuel i : Nat) (rc : Option Nat) (st : Store) (ds : List Nat)
      (evs : List Ev),
      (runCallGo cfg server url fuel i rc st ds evs).attempts ≤
        i + 1 + (3 - rc.getD 0) := by
  intro fuel
  induction fuel with
  | zero =>
    intro i rc st ds evs
    show (RunOut.mk i ds .outOfFuel st evs).attempts ≤ i + 1 + (3 - rc.getD 0)
    simp
    omega
  | succ n ih =>
    intro i rc st ds evs
    rw [runCallGo_succ]
    by_cases h2 : 200 ≤ (server i).status ∧ (server i).status < 300
    · rw [if_pos h2]
      simp
    · rw [if_neg h2]
      cases hd : (responseErrorInterceptor cfg st
          ⟨some (server i), url, rc, none, ""⟩).decision with
      | retry d rc2 =>
        obtain ⟨hlt, hrc2, hdel⟩ := interceptor_retry_inv _ _ _ _ _ hd
        have hlt3 : rc.getD 0 < 3 := hlt
        have hrc3 : rc2 = rc.getD 0 + 1 := hrc2
        have hb := ih (i + 1) (some rc2)
          (responseErrorInterceptor cfg st
            ⟨some (server i), url, rc, none, ""⟩).store
          (ds ++ [d])
          (evs ++ (responseErrorInterceptor cfg st
            ⟨some (server i), url, rc, none, ""⟩).events)
        simp only [Option.getD_some] at hb
        dsimp only
        omega
      | throwE e2 => simp

/-- C5: a 429 response triggers no retry; the configured rate-limit callback
is invoked exactly once with the parsed `Retry-After` seconds when the header
carries a value and with an absent value otherwise, and the call fails with a
RATE_LIMIT_EXCEEDED classified error. -/
theorem rate_limit_classification (cfg : ApiClientConfig) (st : Store)
    (e : AxiosErr) (r : Response) (hr : e.response = some r)
    (hs : r.status = 429) (hcb : cfg.onRateLimit = true) :
    (responseErrorInterceptor cfg st e).store = st ∧
    (responseErrorInterceptor cfg st e).events =
      [.rateLimitCb (parseRetryAfter r.retryAfterHeader)] ∧
    (responseErrorInterceptor cfg st e).decision =
      .throwE ⟨.str ("Too many requests. Please try again later."), some 429,
        "RATE_LIMIT_EXCEEDED", some r.data⟩ ∧
    parseRetryAfter none = none ∧
    (∀ s, s ≠ "" → parseRetryAfter (some s) = some (jsParseInt s)) ∧
    (∀ (url : Option String) (st2 : Store) (server : Nat → Response),
      (server 0).status = 429 →
        (runCall cfg url st2 server).attempts = 1 ∧
        (runCall cfg url st2 server).delays = []) := by
  rw [interceptor_429 cfg st e r hr hs]
  refine ⟨rfl, by simp [hcb], rfl, rfl,
    fun s hsne => by simp [parseRetryAfter, hsne], ?_⟩
  intro url st2 server h0
  rw [runCall_unfold, runCallGo_succ]
  rw [if_neg (by omega)]
  rw [interceptor_429 cfg st2 ⟨some (server 0), url, none, none, ""⟩
    (server 0) rfl h0]
  exact ⟨rfl, rfl⟩

/-- Witness for C5: a 429 with a Retry-After of 7 seconds invokes the
callback with 7, and the whole call makes a single attempt. -/
theorem rate_limit_classification_witness :
    (responseErrorInterceptor ⟨true, true, true⟩ ⟨some ("a"), none, none⟩
        ⟨some ⟨429, JVal.null, some ("7")⟩, some ("/api/blogs"), none, none,
          ""⟩).events
      = [.rateLimitCb (some (some 7))] ∧
    (runCall ⟨true, true, true⟩ none ⟨none, none, none⟩
        (fun _ => ⟨429, JVal.null, some ("7")⟩)).attempts = 1 := by
  have h := rate_limit_classification ⟨true, true, true⟩
    ⟨some ("a"), none, none⟩
    ⟨some ⟨429, JVal.null, some ("7")⟩, some ("/api/blogs"), none, none, ""⟩
    ⟨429, JVal.null, some ("7")⟩ rfl rfl rfl
  refine ⟨?_, (h.2.2.2.2.2 none ⟨none, none, none⟩
    (fun _ => ⟨429, JVal.null, some ("7")⟩) rfl).1⟩
  rw [h.2.1]
  decide

/-- C6: a response with a 2xx status resolves the call with the response body
itself, unwrapped, in a single attempt with no side effects. -/
theorem success_resolves_with_body (cfg : ApiClientConfig)
    (url : Option String) (st : Store) (server : Nat → Response)
    (h2 : 200 ≤ (server 0).status) (h3 : (server 0).status < 300) :
    runCall cfg url st server = ⟨1, [], .ok ((server 0).data), st, []⟩ ∧
    responseInterceptor (server 0) = (server 0).data := by
  refine ⟨?_, rfl⟩
  rw [runCall_unfold, runCallGo_succ, if_pos ⟨h2, h3⟩]
  rfl

/-- Witness for C6: a 200 whose body is the success-flag envelope resolves to
exactly that envelope. -/
theorem success_resolves_with_body_witness :
    runCall ⟨true, true, true⟩ none ⟨none, none, none⟩
        (fun _ => ⟨200,
          JVal.obj [("success", JVal.bool true),
            ("data", JVal.arr [JVal.num 1, JVal.num 2])], none⟩) =
      ⟨1, [],
        .ok (JVal.obj [("success", JVal.bool true),
          ("data", JVal.arr [JVal.num 1, JVal.num 2])]),
        ⟨none, none, none⟩, []⟩ :=
  (success_resolves_with_body ⟨true, true, true⟩ none ⟨none, none, none⟩
    (fun _ => ⟨200,
      JVal.obj [("success", JVal.bool true),
        ("data", JVal.arr [JVal.num 1, JVal.num 2])], none⟩)
    (by decide) (by decide)).1

/-- C1: with every attempt answered by a 5xx status, the call waits 1s, 2s
and 4s between the four attempts and fails with a SERVER_ERROR classified
error once the ceiling of 3 retries is exhausted; no call ever makes more
than 4 attempts. -/
theorem server_error_retry_policy (cfg : ApiClientConfig)
    (url : Option String) (st : Store) :
    (∀ server : Nat → Response, (∀ i, 500 ≤ (server i).status) →
      runCall cfg url st server =
        ⟨4, [1000, 2000, 4000],
          .err ⟨.str ("Server error. Please try again later."),
            some ((server 3).status), "SERVER_ERROR", some ((server 3).data)⟩,
          st, []⟩) ∧
    (∀ server : Nat → Response, (runCall cfg url st server).attempts ≤ 4) := by
  constructor
  · intro server h
    rw [runCall_unfold]
    rw [runCallGo_5xx_step cfg server url 4 0 none st [] [] (h 0) (by decide)]
    norm_num
    rw [runCallGo_5xx_step cfg server url 3 1 (some 1) st [1000] [] (h 1)
      (by decide)]
    norm_num
    rw [runCallGo_5xx_step cfg server url 2 2 (some 2) st [1000, 2000] []
      (h 2) (by decide)]
    norm_num
    rw [runCallGo_5xx_stop cfg server url 1 3 (some 3) st [1000, 2000, 4000]
      [] (h 3) (by decide)]
  · intro server
    rw [runCall_unfold]
    have hb := runCallGo_attempts_le cfg server url (4 + 1) 0 none st [] []
    simpa using hb

/-- Witness for C1 at a server that always answers 500. -/
theorem server_error_retry_policy_witness :
    runCall ⟨true, true, true⟩ none ⟨none, none, none⟩
        (fun _ => ⟨500, JVal.null, none⟩) =
      ⟨4, [1000, 2000, 4000],
        .err ⟨.str ("Server error. Please try again later."), some 500,
          "SERVER_ERROR", some JVal.null⟩, ⟨none, none, none⟩, []⟩ :=
  (server_error_retry_policy ⟨true, true, true⟩ none ⟨none, none, none⟩).1
    (fun _ => ⟨500, JVal.null, none⟩) (fun _ => le_refl 500)
